/-
  Verification of the year-resolution and copy-by-year engine of the
  `organize-my-beats` repository, as a shallow embedding in Lean 4.

  The repository contains four drifted variants of the same logic:
  * `src/organize_my_beats/organizer.py`       (class MusicOrganizer, full resolver chain)
  * `src/organize_my_beats/cli.py`             (get_song_year + copy_by_year)
  * `src/organize_my_beats/organize_my_beats.py` (threaded MusicOrganizer, worker)
  * `src/organize_my_beats/advanced_gui.py`    (ProcessingThread.process_file; its per-file
    logic is line-for-line the same as cli.py's, so the CLI embedding covers both)

  Conventions of the embedding:
  * Python strings are Lean `String`s; character scans recurse over `String.toList`.
  * Digit tests use ASCII digits (`Char.isDigit`), matching the tag/filename data the
    program manipulates.
  * A metadata reader call that can raise is a value of `Except String α`
    (`.error msg` = the library raised); the `try/except` blocks of the source are
    translated into `match`es on those values.
  * The filesystem is an explicit state record (created directories, existing files,
    with modification times where the source consults them); `os.makedirs`,
    `os.path.exists`, `shutil.copy2` are small state transformers.
  * `datetime.now().year` is an explicit parameter `cy` (the current year).
-/
import Mathlib

/-! ## String helpers shared by all variants -/

/-- Numeric value of a list of ASCII digit characters (e.g. `int("1995")`). -/
def digitsVal (l : List Char) : Nat :=
  l.foldl (fun a c => a * 10 + (c.toNat - 48)) 0

/-- Python `str.strip()`: drop leading and trailing whitespace. -/
def stripWs (l : List Char) : List Char :=
  ((l.dropWhile Char.isWhitespace).reverse.dropWhile Char.isWhitespace).reverse

/-- Python `int(s)` on a stripped string: optional sign followed by one or
more digits; `none` models a raised `ValueError`. -/
def pyInt (l : List Char) : Option Int :=
  match stripWs l with
  | '-' :: rest =>
    if rest ≠ [] ∧ rest.all Char.isDigit then some (-(digitsVal rest : Int)) else none
  | '+' :: rest =>
    if rest ≠ [] ∧ rest.all Char.isDigit then some (digitsVal rest : Int) else none
  | rest =>
    if rest ≠ [] ∧ rest.all Char.isDigit then some (digitsVal rest : Int) else none

/-- Python `re.search(r'(\d{4})', s)`: value of the leftmost run of four digits, if any. -/
def find4 (l : List Char) : Option Nat :=
  match l with
  | [] => none
  | a :: rest =>
    match rest with
    | b :: c :: d :: _ =>
      if a.isDigit && b.isDigit && c.isDigit && d.isDigit then
        some (digitsVal [a, b, c, d])
      else find4 rest
    | _ => none

/-- The `re.search` for four digits immediately followed by a slash or a
hyphen (pattern `(\d{4})` then the character class slash-hyphen): value of
the leftmost such run. -/
def find4Sep (l : List Char) : Option Nat :=
  match l with
  | [] => none
  | a :: rest =>
    match rest with
    | b :: c :: d :: e :: _ =>
      if a.isDigit && b.isDigit && c.isDigit && d.isDigit && (e = '/' || e = '-') then
        some (digitsVal [a, b, c, d])
      else find4Sep rest
    | _ => none

/-- Four digits at the head of the list after skipping whitespace
(the `\s*(\d{4})` tail of the copyright pattern). -/
def digits4AfterWs (l : List Char) : Option Nat :=
  match l.dropWhile Char.isWhitespace with
  | a :: b :: c :: d :: _ =>
    if a.isDigit && b.isDigit && c.isDigit && d.isDigit then
      some (digitsVal [a, b, c, d])
    else none
  | _ => none

/-- Python `re.search(r'[©℗]\s*(\d{4})', s)`: leftmost copyright/phonogram symbol
followed by optional whitespace and four digits. -/
def findCopyright4 (l : List Char) : Option Nat :=
  match l with
  | [] => none
  | a :: rest =>
    if a = '©' || a = '℗' then
      match digits4AfterWs rest with
      | some v => some v
      | none => findCopyright4 rest
    else findCopyright4 rest

/-- Python `os.path.dirname`: everything before the final `/` (empty if none). -/
def dirnameStr (p : String) : String :=
  String.mk (((p.toList.reverse.dropWhile (· ≠ '/')).drop 1).reverse)

/-! ## organizer.py — MusicOrganizer resolver chain -/

namespace ORG

/-- The acceptance idiom organizer.py repeats at each regex probe
(`match = re.search(...); if match: year = int(...); if 1900 <= year <=
datetime.datetime.now().year: return year` followed by the next probe):
accept the found run if in range, otherwise continue with `k`.  NOTE: when
a run IS found but is out of range, the source does NOT search further —
it simply falls past the `return` into `k`. -/
def acceptInRange (o : Option Nat) (cy : Nat) (k : Option Int) : Option Int :=
  match o with
  | some v => if 1900 ≤ v ∧ v ≤ cy then some (v : Int) else k
  | none => k

/-- Embeds `MusicOrganizer._parse_year_from_string` (organizer.py:191-219).
Upper bound of every acceptance check in the source is
`datetime.datetime.now().year`, i.e. `cy` (not `cy + 1`). -/
def parse_year_from_string (s : String) (cy : Nat) : Option Int :=
  if s = "" then none
  else
    -- First try direct conversion (if it's just a year)
    match pyInt s.toList with
    | some y =>
      if 1900 ≤ y ∧ y ≤ (cy : Int) then some y
      else acceptInRange (find4Sep s.toList) cy (acceptInRange (find4 s.toList) cy none)
    | none =>
      acceptInRange (find4Sep s.toList) cy (acceptInRange (find4 s.toList) cy none)

/-- Embeds `MusicOrganizer._extract_year_from_copyright` (organizer.py:221-240). -/
def extract_year_from_copyright (s : String) (cy : Nat) : Option Int :=
  if s = "" then none
  else acceptInRange (findCopyright4 s.toList) cy (acceptInRange (find4 s.toList) cy none)

/-- Embeds `MusicOrganizer._extract_year_from_filename` (organizer.py:242-262):
a four-digit run in the file name, else one in the directory path. -/
def extract_year_from_filename (filename directory : String) (cy : Nat) : Option Int :=
  acceptInRange (find4 filename.toList) cy
    (acceptInRange (find4 directory.toList) cy none)

/-- The truthy date fields an `eyed3` tag object exposes (`some s` = the field
is present and truthy; the source stringifies it before parsing). -/
structure Eyed3Tag where
  release_date : Option String
  recording_date : Option String
  original_release_date : Option String
deriving Repr, DecidableEq

/-- One audio file as seen by organizer.py: identity plus the outcome of each
metadata-library call it can make (`Except.error` = the library raised).
`copyOk`/`copyMsg` model whether `shutil.copy2` on this source succeeds and
the message of the exception it otherwise raises. -/
structure FileO where
  name : String       -- os.path.basename(file_path)
  dir : String        -- os.path.dirname(file_path)
  ext : String        -- os.path.splitext(file_path)[1].lower()
  mtime : Nat         -- os.path.getmtime(file_path)
  eyed3R : Except String (Option Eyed3Tag)            -- eyed3.load (ok none: audio/tag falsy)
  id3R : Except String (List (String × String))       -- ID3(file_path) frames
  flacR : Except String (List (String × String))      -- FLAC(file_path) tags
  mp4R : Except String (List (String × String))       -- MP4(file_path) tags
  mutagenR : Except String (Option (List (String × String)))  -- mutagen.File
  copyOk : Bool
  copyMsg : String

/-- First tag of `names` present in the association list, returning its value
(the `for tag in [...]: if tag in audio: return ...` loops). -/
def firstPresent (names : List String) (tags : List (String × String)) : Option String :=
  match names with
  | [] => none
  | n :: rest =>
    match tags.lookup n with
    | some v => some v
    | none => firstPresent rest tags

/-- Embeds `MusicOrganizer._extract_year_mp3` (organizer.py:115-150). A present,
truthy eyed3 date field is parsed and its result returned directly — even
when the parse yields `None`; likewise for the first present ID3 frame. -/
def extract_year_mp3 (f : FileO) (cy : Nat) : Option Int :=
  match f.eyed3R with
  | .error _ => extract_year_mp3_id3 f cy
  | .ok none => extract_year_mp3_id3 f cy
  | .ok (some t) =>
    match t.release_date with
    | some s => parse_year_from_string s cy
    | none =>
      match t.recording_date with
      | some s => parse_year_from_string s cy
      | none =>
        match t.original_release_date with
        | some s => parse_year_from_string s cy
        | none => extract_year_mp3_id3 f cy
where
  /-- The ID3-frame half of `_extract_year_mp3` (organizer.py:138-150). -/
  extract_year_mp3_id3 (f : FileO) (cy : Nat) : Option Int :=
    match f.id3R with
    | .error _ => extract_year_from_filename f.name f.dir cy
    | .ok frames =>
      match firstPresent ["TDRC", "TYER", "TDRL", "TDOR"] frames with
      | some v => parse_year_from_string v cy
      | none => extract_year_from_filename f.name f.dir cy

/-- Embeds `MusicOrganizer._extract_year_flac` (organizer.py:152-171). -/
def extract_year_flac (f : FileO) (cy : Nat) : Option Int :=
  match f.flacR with
  | .error _ => extract_year_from_filename f.name f.dir cy
  | .ok tags =>
    match tags.lookup "date" with
    | some v => parse_year_from_string v cy
    | none =>
      match tags.lookup "year" with
      | some v => parse_year_from_string v cy
      | none =>
        match tags.lookup "copyright" with
        | some v => extract_year_from_copyright v cy
        | none => extract_year_from_filename f.name f.dir cy

/-- Embeds `MusicOrganizer._extract_year_m4a` (organizer.py:173-189).
The `'yyyy'` branch returns `int(mp4['yyyy'][0])` with no range validation
(line 181); a non-numeric value raises `ValueError`, which the `except`
catches, falling to the filename fallback.  When neither `'©day'` nor
`'yyyy'` is present, line 182 evaluates `'dcfd' in mp` — `mp` is an
undefined name, so a `NameError` is raised and caught by the same `except`:
the `'dcfd'` and `'cprt'` probes are unreachable and control falls to the
filename fallback. -/
def extract_year_m4a (f : FileO) (cy : Nat) : Option Int :=
  match f.mp4R with
  | .error _ => extract_year_from_filename f.name f.dir cy
  | .ok tags =>
    match tags.lookup "©day" with
    | some v => parse_year_from_string v cy
    | none =>
      match tags.lookup "yyyy" with
      | some v =>
        match pyInt v.toList with
        | some n => some n
        | none => extract_year_from_filename f.name f.dir cy
      | none => extract_year_from_filename f.name f.dir cy

/-- Embeds `MusicOrganizer.extract_year` (organizer.py:82-113): dispatch on the
extension, generic mutagen probe for other formats, filename fallback. -/
def extract_year (f : FileO) (cy : Nat) : Option Int :=
  if f.ext = ".mp3" then extract_year_mp3 f cy
  else if f.ext = ".flac" then extract_year_flac f cy
  else if f.ext = ".m4a" ∨ f.ext = ".mp4" then extract_year_m4a f cy
  else
    match f.mutagenR with
    | .error _ => extract_year_from_filename f.name f.dir cy
    | .ok none => extract_year_from_filename f.name f.dir cy
    | .ok (some tags) =>
      match firstPresent ["date", "year", "TDRC", "TYER", "TDRL", "TDOR"] tags with
      | some v => parse_year_from_string v cy
      | none => extract_year_from_filename f.name f.dir cy

end ORG

/-! ## cli.py / advanced_gui.py / organize_my_beats.py — get_song_year -/

namespace CLI

/-- Outcome of `MutagenFile(filepath, easy=True)`: the call raised, returned a
falsy object, or returned a tag mapping (value = `str(audio[tag][0])`). -/
def MutagenRead := Except String (Option (List (String × String)))

/-- The tag loop of cli.py/advanced_gui.py `get_song_year` (cli.py:37-46):
first present tag whose value starts with four digits forming a year in
`[1900, cy + 1]`; a present tag failing either check falls through to the
next tag name. -/
def gsyLoop (names : List String) (tags : List (String × String)) (cy : Nat) : Option String :=
  match names with
  | [] => none
  | n :: rest =>
    match tags.lookup n with
    | none => gsyLoop rest tags cy
    | some v =>
      let l := v.toList
      if 4 ≤ l.length ∧ (l.take 4).all Char.isDigit then
        if 1900 ≤ digitsVal (l.take 4) ∧ digitsVal (l.take 4) ≤ cy + 1 then
          some (String.mk (l.take 4))
        else gsyLoop rest tags cy
      else gsyLoop rest tags cy

/-- Embeds `get_song_year` (cli.py:21-50).  Its `except` handler reads the
module-level `args` set by `main()`; `argsDefined` records whether that
global exists — when it does not (library use), the handler itself raises
`NameError`, which escapes `get_song_year`. -/
def get_song_year (audio : MutagenRead) (cy : Nat) (argsDefined : Bool) :
    Except String (Option String) :=
  match audio with
  | .error _ => if argsDefined then .ok none else .error "NameError: name args is not defined"
  | .ok none => .ok none
  | .ok (some tags) => .ok (gsyLoop ["date", "year", "originaldate", "copyright"] tags cy)

/-- The tag loop of `MusicOrganizer.get_song_year` in organize_my_beats.py
(lines 46-50): identical to the CLI loop but with NO range validation —
any present tag whose value starts with four digits is accepted. -/
def gsyLoopM (names : List String) (tags : List (String × String)) : Option String :=
  match names with
  | [] => none
  | n :: rest =>
    match tags.lookup n with
    | none => gsyLoopM rest tags
    | some v =>
      let l := v.toList
      if 4 ≤ l.length ∧ (l.take 4).all Char.isDigit then some (String.mk (l.take 4))
      else gsyLoopM rest tags

/-- Embeds `MusicOrganizer.get_song_year` (organize_my_beats.py:40-53); its
`except` handler only prints, so the function itself never raises. -/
def get_song_year_mb (audio : MutagenRead) : Option String :=
  match audio with
  | .error _ => none
  | .ok none => none
  | .ok (some tags) => gsyLoopM ["date", "year", "originaldate", "copyright"] tags

end CLI

/-! ## Engine state: filesystem and statistics -/

/-- Destination-side filesystem: directories created so far and files
present (paths are plain strings). -/
structure FS where
  dirs : List String
  files : List String
deriving Repr, DecidableEq

/-- Python `Path.mkdir(parents=True, exist_ok=True)`. -/
def mkdirp (fs : FS) (d : String) : FS := { fs with dirs := d :: fs.dirs }

/-- Python `dest_file.exists()` / `os.path.exists`. -/
def fexists (fs : FS) (p : String) : Bool := decide (p ∈ fs.files)

/-- Python `shutil.copy2(src, dst)` on the success path: the destination file now exists. -/
def copy2 (fs : FS) (p : String) : FS := { fs with files := p :: fs.files }

/-- The stats dictionary shared by cli.py, advanced_gui.py and
organize_my_beats.py: exactly the keys
`total, copied, skipped, no_year, errors, years`. -/
structure StatsC where
  total : Nat
  copied : Nat
  skipped : Nat
  no_year : Nat
  errors : Nat
  years : List (String × Nat)
deriving Repr, DecidableEq

def initStatsC : StatsC := ⟨0, 0, 0, 0, 0, []⟩

/-- Python `stats["years"][y] = stats["years"].get(y, 0) + 1`. -/
def bumpYear (ys : List (String × Nat)) (y : String) : List (String × Nat) :=
  match ys with
  | [] => [(y, 1)]
  | (k, n) :: t => if k = y then (k, n + 1) :: t else (k, n) :: bumpYear t y

/-- Total number of files recorded in the per-year map. -/
def yearsSum (ys : List (String × Nat)) : Nat :=
  ys.foldr (fun p a => p.2 + a) 0

/-! ## cli.py — copy_by_year (also advanced_gui.py ProcessingThread.process_file) -/

namespace CLI

/-- cli.py:18 (identical in advanced_gui.py and organize_my_beats.py;
note: no ".mp4", unlike organizer.py's list). -/
def AUDIO_EXTENSIONS : List String :=
  [".mp3", ".flac", ".m4a", ".ogg", ".wav", ".wma", ".aac"]

/-- One audio file as the CLI-style engines see it: name, lowercased suffix,
the `MutagenFile` outcome, and whether `shutil.copy2` from it succeeds. -/
structure FileC where
  name : String
  ext : String
  tags : MutagenRead
  copyOk : Bool

/-- The `overwrite` / `unknown_year_folder` entries of the options dict. -/
structure OptsC where
  overwrite : Bool
  unknown_year_folder : Bool

/-- Does this walk entry reach the per-file body (suffix filter, cli.py:88)? -/
def qualC (f : FileC) : Bool := AUDIO_EXTENSIONS.contains f.ext

/-- The per-file body of `copy_by_year` (cli.py:91-141), which is also,
statement for statement, `ProcessingThread.process_file` of advanced_gui.py
(lines 111-153): `total` increment, then the `try` block; the `except`
increments `errors` and keeps all mutations made before the raise.
`get_song_year` is called with the module global `args` defined, since
`main()` sets it before `copy_by_year` runs. -/
def processFileC (dest : String) (cy : Nat) (o : OptsC) (f : FileC)
    (s : StatsC) (fs : FS) : StatsC × FS :=
  let s1 := { s with total := s.total + 1 }
  match get_song_year f.tags cy true with
  | .error _ => ({ s1 with errors := s1.errors + 1 }, fs)
  | .ok (some y) =>
    -- year statistics are updated on resolution, before the copy decision
    let s2 := { s1 with years := bumpYear s1.years y }
    let fs1 := mkdirp fs (dest ++ "/" ++ y)
    let d := dest ++ "/" ++ y ++ "/" ++ f.name
    if !(fexists fs1 d) || o.overwrite then
      if f.copyOk then ({ s2 with copied := s2.copied + 1 }, copy2 fs1 d)
      else ({ s2 with errors := s2.errors + 1 }, fs1)  -- copy2 raised
    else ({ s2 with skipped := s2.skipped + 1 }, fs1)
  | .ok none =>
    let s2 := { s1 with no_year := s1.no_year + 1 }
    if o.unknown_year_folder then
      let fs1 := mkdirp fs (dest ++ "/Unknown Year")
      let d := dest ++ "/Unknown Year/" ++ f.name
      if !(fexists fs1 d) || o.overwrite then
        if f.copyOk then (s2, copy2 fs1 d)   -- copied, but no counter is touched
        else ({ s2 with errors := s2.errors + 1 }, fs1)  -- copy2 raised
      else (s2, fs1)
    else (s2, fs)

/-- Embeds `copy_by_year` (cli.py:53-143): walk the source entries in order,
process each one whose suffix is a recognized audio extension. -/
def copy_by_year (dest : String) (cy : Nat) (o : OptsC) (files : List FileC)
    (s : StatsC) (fs : FS) : StatsC × FS :=
  match files with
  | [] => (s, fs)
  | f :: rest =>
    if qualC f then
      let r := processFileC dest cy o f s fs
      copy_by_year dest cy o rest r.1 r.2
    else copy_by_year dest cy o rest s fs

/-- The year `get_song_year` yields for a file inside the engine (where the
`args` global is defined), if any. -/
def resolvedYearC (cy : Nat) (f : FileC) : Option String :=
  match get_song_year f.tags cy true with
  | .ok (some y) => some y
  | _ => none

/-- Qualifying file whose year resolves. -/
def isResolvedC (cy : Nat) (f : FileC) : Bool :=
  qualC f && (resolvedYearC cy f).isSome

/-- Destination path of a resolved file: `destination_folder/<year>/<name>`. -/
def destPathC (dest : String) (cy : Nat) (f : FileC) : String :=
  dest ++ "/" ++ ((resolvedYearC cy f).getD "") ++ "/" ++ f.name

/-- Number of qualifying resolved files in a walk. -/
def countResolvedC (cy : Nat) : List FileC → Nat
  | [] => 0
  | f :: t => (if isResolvedC cy f then 1 else 0) + countResolvedC cy t

/-- Number of qualifying files in a walk. -/
def countQualC : List FileC → Nat
  | [] => 0
  | f :: t => (if qualC f then 1 else 0) + countQualC t

end CLI

/-! ## organize_my_beats.py — threaded MusicOrganizer -/

namespace MB

open CLI (MutagenRead FileC qualC get_song_year_mb)

/-- The body of `MusicOrganizer.worker` for one dequeued file
(organize_my_beats.py:62-86): no overwrite option (copy only if the
destination does not exist), the per-year map is updated only on a
successful copy, the `except` increments `errors`. -/
def processFileM (dest : String) (f : FileC) (s : StatsC) (fs : FS) : StatsC × FS :=
  match get_song_year_mb f.tags with
  | some y =>
    let fs := mkdirp fs (dest ++ "/" ++ y)
    let d := dest ++ "/" ++ y ++ "/" ++ f.name
    if !(fexists fs d) then
      if f.copyOk then
        ({ s with copied := s.copied + 1, years := bumpYear s.years y }, copy2 fs d)
      else ({ s with errors := s.errors + 1 }, fs)  -- copy2 raised
    else ({ s with skipped := s.skipped + 1 }, fs)
  | none => ({ s with no_year := s.no_year + 1 }, fs)

/-- Embeds `MusicOrganizer.organize` with the scanner (`scan_files`, lines 88-98)
and worker pool flattened to a sequential fold: `scan_files` increments
`total` once per qualifying file it enqueues, and each enqueued file is
processed by the worker body exactly once — the final statistics are the
same as interleaving the increments. -/
def organize_mb (dest : String) (files : List FileC) (s : StatsC) (fs : FS) : StatsC × FS :=
  match files with
  | [] => (s, fs)
  | f :: rest =>
    if qualC f then
      let r := processFileM dest f { s with total := s.total + 1 } fs
      organize_mb dest rest r.1 r.2
    else organize_mb dest rest s fs

end MB

/-! ## organizer.py — MusicOrganizer engine (mtime-aware copy) -/

namespace ORG

/-- Destination filesystem as organizer.py consults it: created directories
plus files with their modification times (`copy2` preserves the source's). -/
structure FSO where
  dirs : List String
  files : List (String × Nat)
deriving Repr, DecidableEq

/-- Python `os.path.getmtime(target)` guarded by `os.path.exists(target)`. -/
def mtimeOf (files : List (String × Nat)) (p : String) : Option Nat :=
  files.lookup p

/-- Python `shutil.copy2`: the destination now exists with the source's mtime. -/
def setMtime (files : List (String × Nat)) (p : String) (m : Nat) : List (String × Nat) :=
  match files with
  | [] => [(p, m)]
  | (q, n) :: t => if q = p then (p, m) :: t else (q, n) :: setMtime t p m

/-- The stats dictionary of organizer.py's MusicOrganizer (lines 32-40),
restricted to the fields the organize path touches (`artists`/`genres`
are never written by it). -/
structure StatsO where
  processed_files : Nat
  organized_files : Nat
  failed_files : Nat
  years : List (String × Nat)
  errors : List String
deriving Repr, DecidableEq

def initStatsO : StatsO := ⟨0, 0, 0, [], []⟩

/-- Embeds `MusicOrganizer.get_target_path` (organizer.py:264-282): re-extracts the
year when the argument is falsy (`None` or `0`), maps a falsy year to the
literal folder `"Unknown Year"`, and — as a side effect of computing the
path — creates `target_dir/<year_str>` with `os.makedirs(..., exist_ok=True)`. -/
def get_target_path (cy : Nat) (fs : FSO) (target_dir : String) (f : FileO)
    (year : Option Int) : FSO × String :=
  let y : Option Int :=
    match year with
    | some n => if n = 0 then extract_year f cy else some n
    | none => extract_year f cy
  let year_str : String :=
    match y with
    | some n => if n = 0 then "Unknown Year" else toString n
    | none => "Unknown Year"
  let td := target_dir ++ "/" ++ year_str
  ({ fs with dirs := td :: fs.dirs }, td ++ "/" ++ f.name)

/-- Embeds `MusicOrganizer.organize_file` (organizer.py:284-340): extract the year,
compute the target path (creating the year directory), copy when the target
is missing or the source is strictly newer, update the per-year map only on
a successful copy of a file with a truthy year; on an exception (here: the
copy raising) increment `failed_files` and append `"<basename>: <message>"`
to the error list.  The `processed_files` counter is incremented on both
the copy and the skip paths, but not on the failure path. -/
def organize_file (cy : Nat) (target_dir : String) (f : FileO)
    (s : StatsO) (fs : FSO) : StatsO × FSO :=
  let year := extract_year f cy
  let r := get_target_path cy fs target_dir f year
  let fs1 := r.1
  let target := r.2
  let doCopy : Bool :=
    match mtimeOf fs1.files target with
    | none => true
    | some mt => decide (mt < f.mtime)
  if doCopy then
    if f.copyOk then
      let fs2 := { fs1 with dirs := dirnameStr target :: fs1.dirs }
      let fs3 := { fs2 with files := setMtime fs2.files target f.mtime }
      let s1 :=
        match year with
        | some y => if y = 0 then s else { s with years := bumpYear s.years (toString y) }
        | none => s
      ({ s1 with organized_files := s1.organized_files + 1,
                 processed_files := s1.processed_files + 1 }, fs3)
    else
      ({ s with failed_files := s.failed_files + 1,
                errors := s.errors ++ [f.name ++ ": " ++ f.copyMsg] }, fs1)
  else
    ({ s with processed_files := s.processed_files + 1 }, fs1)

end ORG

/-! ## Range lemmas for the validated acceptance points -/

namespace ORG

/-- Every `some` produced by an `acceptInRange` chain whose continuation
also only produces in-range values is in `[1900, cy]`. -/
theorem acceptInRange_range {o : Option Nat} {cy : Nat} {k : Option Int} {y : Int}
    (hk : ∀ z, k = some z → 1900 ≤ z ∧ z ≤ (cy : Int))
    (h : acceptInRange o cy k = some y) : 1900 ≤ y ∧ y ≤ (cy : Int) := by
  unfold acceptInRange at h
  split at h
  · split_ifs at h with hr
    · cases h
      exact ⟨by exact_mod_cast hr.1, by exact_mod_cast hr.2⟩
    · exact hk y h
  · exact hk y h

theorem parse_year_from_string_range {s : String} {cy : Nat} {y : Int}
    (h : parse_year_from_string s cy = some y) : 1900 ≤ y ∧ y ≤ (cy : Int) := by
  unfold parse_year_from_string at h
  split_ifs at h
  split at h
  · split_ifs at h with hr
    · cases h; exact hr
    · exact acceptInRange_range (fun z hz => acceptInRange_range (fun w hw => by cases hw) hz) h
  · exact acceptInRange_range (fun z hz => acceptInRange_range (fun w hw => by cases hw) hz) h

theorem extract_year_from_copyright_range {s : String} {cy : Nat} {y : Int}
    (h : extract_year_from_copyright s cy = some y) : 1900 ≤ y ∧ y ≤ (cy : Int) := by
  unfold extract_year_from_copyright at h
  split_ifs at h
  exact acceptInRange_range (fun z hz => acceptInRange_range (fun w hw => by cases hw) hz) h

theorem extract_year_from_filename_range {n d : String} {cy : Nat} {y : Int}
    (h : extract_year_from_filename n d cy = some y) : 1900 ≤ y ∧ y ≤ (cy : Int) := by
  unfold extract_year_from_filename at h
  exact acceptInRange_range (fun z hz => acceptInRange_range (fun w hw => by cases hw) hz) h

end ORG

namespace CLI

theorem gsyLoop_range {names : List String} {tags : List (String × String)}
    {cy : Nat} {y : String}
    (h : gsyLoop names tags cy = some y) :
    1900 ≤ digitsVal y.toList ∧ digitsVal y.toList ≤ cy + 1 := by
  induction names with
  | nil => simp [gsyLoop] at h
  | cons n rest ih =>
    unfold gsyLoop at h
    split at h
    · exact ih h
    · dsimp only at h
      split_ifs at h with h1 h2
      · cases h
        exact h2
      · exact ih h
      · exact ih h

end CLI

/-! ## Claim C1 — range validation of resolved years -/

/-- C1, counterexample: the claim says a tag value like `"9999"` is never
accepted by any variant of the resolver, but `get_song_year` of
organize_my_beats.py (lines 40-53) accepts it: the first present tag whose
value starts with four digits is returned with no range validation. -/
theorem claim_C1_counterexample :
    CLI.get_song_year_mb (.ok (some [("date", "9999")])) = some "9999" := by
  rfl

/-- C1 (amended): range validation holds at the acceptance points that have
it — the cli.py/advanced_gui.py `get_song_year` accepts only years in
`[1900, cy+1]`, and organizer.py's date-string, copyright and filename
parsers accept only years in `[1900, cy]` — but NOT in every variant: the
organize_my_beats.py `get_song_year` accepts any four-digit prefix
(`"0042"` included), and organizer.py's MP4 `'yyyy'` atom branch returns
`int(value)` unvalidated (`"9999"` accepted). -/
theorem claim_C1_amended :
    (∀ (t : CLI.MutagenRead) (cy : Nat) (y : String),
        CLI.get_song_year t cy true = .ok (some y) →
        1900 ≤ digitsVal y.toList ∧ digitsVal y.toList ≤ cy + 1)
    ∧ (∀ (s : String) (cy : Nat) (y : Int),
        ORG.parse_year_from_string s cy = some y → 1900 ≤ y ∧ y ≤ (cy : Int))
    ∧ (∀ (s : String) (cy : Nat) (y : Int),
        ORG.extract_year_from_copyright s cy = some y → 1900 ≤ y ∧ y ≤ (cy : Int))
    ∧ (∀ (n d : String) (cy : Nat) (y : Int),
        ORG.extract_year_from_filename n d cy = some y → 1900 ≤ y ∧ y ≤ (cy : Int))
    ∧ CLI.get_song_year_mb (.ok (some [("date", "0042")])) = some "0042"
    ∧ ORG.extract_year
        ⟨"track.m4a", "/m", ".m4a", 0, .ok none, .ok [], .ok [], .ok [("yyyy", "9999")],
         .ok none, true, ""⟩ 2025 = some 9999 := by
  refine ⟨?_, ?_, ?_, ?_, ?_, ?_⟩
  · intro t cy y h
    cases t with
    | error e => simp [CLI.get_song_year] at h
    | ok o =>
      cases o with
      | none => simp [CLI.get_song_year] at h
      | some tags =>
        simp only [CLI.get_song_year, Except.ok.injEq] at h
        exact CLI.gsyLoop_range h
  · exact fun s cy y h => ORG.parse_year_from_string_range h
  · exact fun s cy y h => ORG.extract_year_from_copyright_range h
  · exact fun n d cy y h => ORG.extract_year_from_filename_range h
  · rfl
  · rfl

/-- C1, witness: a well-formed `"2000-01-01"` date tag is accepted by the
CLI resolver and the accepted year lies in the claimed range. -/
theorem claim_C1_witness :
    1900 ≤ digitsVal ("2000".toList) ∧ digitsVal ("2000".toList) ≤ 2025 + 1 :=
  claim_C1_amended.1 (.ok (some [("date", "2000-01-01")])) 2025 "2000" (by rfl)

/-! ## Claim C7 — MP4 probe order (the undefined-name bug) -/

/-- C7: the claim says an MP4 file whose only year-bearing tag is the
copyright atom resolves via the copyright-extraction rule before any
filename fallback.  The code cannot do this: after the `'©day'` and
`'yyyy'` probes fail, line 182 of organizer.py evaluates `'dcfd' in mp`
where `mp` is an undefined name (a typo for `mp4`, as the surrounding
lines and the `# Release Date` comment show), so a `NameError` is raised,
the `except` swallows it, and the file falls to the filename fallback —
the `'dcfd'` and `'cprt'` probes are dead code.  Below: a file whose MP4
tags hold only `cprt = "© 2001 Label"` (and whose name/path carry no
digits) resolves to nothing, although the copyright-extraction rule
applied to that atom yields 2001. -/
theorem claim_C7_thm :
    ORG.extract_year
      ⟨"track.m4a", "/music", ".m4a", 0, .ok none, .ok [], .ok [],
       .ok [("cprt", "© 2001 Label")], .ok none, true, ""⟩ 2025 = none
    ∧ ORG.extract_year_from_copyright "© 2001 Label" 2025 = some 2001 := by
  exact ⟨rfl, rfl⟩

/-! ## Claim C8 — the date-string parsing rule -/

/-- C8, counterexample: the claim says the rule "accepts the first in-range
4-digit run found anywhere in the string", but `_parse_year_from_string`
checks only the FIRST 4-digit run: in `"x0042y1995"` the first run `0042`
is out of range, the function returns `None`, and the in-range `1995` is
never considered. -/
theorem claim_C8_counterexample :
    ORG.parse_year_from_string "x0042y1995" 2025 = none := by
  rfl

/-- C8 (amended): the date-string rule first attempts a whole-string
integer parse, accepted if in `[1900, current_year]` (not `current_year+1`:
`"2026"` is rejected when the current year is 2025 and accepted when it is
2026); failing that it accepts an in-range `YYYY` immediately followed by
`-` or `/`; failing that it examines only the FIRST 4-digit run in the
string and accepts it exactly when it is in range (an out-of-range first
run makes the whole parse fail, as in `"ab0000cd1977"`).  A value like
`"Released 1995"`, whose digits are not at the start, still resolves
to 1995. -/
theorem claim_C8_amended :
    (∀ (s : String) (cy : Nat) (y : Int),
        pyInt s.toList = some y → 1900 ≤ y → y ≤ (cy : Int) →
        ORG.parse_year_from_string s cy = some y)
    ∧ ORG.parse_year_from_string "2026" 2025 = none
    ∧ ORG.parse_year_from_string "2026" 2026 = some 2026
    ∧ (∀ cy : Nat, 1995 ≤ cy → ORG.parse_year_from_string "Released 1995" cy = some 1995)
    ∧ ORG.parse_year_from_string "ab0000cd1977" 2025 = none := by
  refine ⟨?_, rfl, rfl, ?_, rfl⟩
  · intro s cy y hp h1 h2
    have hne : s ≠ "" := by
      intro he
      rw [he] at hp
      simp [pyInt, stripWs] at hp
    unfold ORG.parse_year_from_string
    rw [if_neg hne, hp]
    simp only [if_pos (⟨h1, h2⟩ : 1900 ≤ y ∧ y ≤ (cy : Int))]
  · intro cy hcy
    unfold ORG.parse_year_from_string
    rw [if_neg (by decide : ¬("Released 1995" = ""))]
    rw [show pyInt ("Released 1995".toList) = none from rfl]
    rw [show find4Sep ("Released 1995".toList) = none from rfl]
    rw [show find4 ("Released 1995".toList) = some 1995 from rfl]
    unfold ORG.acceptInRange
    simp only []
    rw [if_pos ⟨by norm_num, hcy⟩]
    norm_num

/-- C8, witness: the whole-string parse branch at a concrete in-range input. -/
theorem claim_C8_witness :
    ORG.parse_year_from_string "1987" 2025 = some 1987 :=
  claim_C8_amended.1 "1987" 2025 1987 (by rfl) (by norm_num) (by norm_num)

/-! ## Claim C3 — the resolver never raises / falls through -/

/-- C3, counterexample: the claim says any failure of one strategy falls
through to the next.  In organizer.py, a PRESENT but unparseable tag does
not fall through: `_extract_year_mp3` returns
`self._parse_year_from_string(...)` directly, so its `None` is final.  An
mp3 whose eyed3 read raises and whose ID3 `TDRC` frame is `"n/a"` resolves
to nothing, although the next strategy (the filename, `"song 1999.mp3"`)
would yield 1999. -/
theorem claim_C3_counterexample :
    ORG.extract_year
      ⟨"song 1999.mp3", "/m", ".mp3", 0, .error "bad", .ok [("TDRC", "n/a")],
       .ok [], .ok [], .ok none, true, ""⟩ 2025 = none
    ∧ ORG.extract_year_from_filename "song 1999.mp3" "/m" 2025 = some 1999 :=
  ⟨rfl, rfl⟩

/-- C3 (amended): the resolver never raises — the CLI `get_song_year`
returns normally for every reader outcome (given the module-level `args`
set by `main()`), and organizer.py's `extract_year` handles a file whose
every metadata reader raises by falling through to the filename/path
fallback, returning the unresolved outcome (`none`) on total failure; it
performs no writes.  However, fallthrough happens only on reader
exceptions or absent tags: a tag that is present but yields no in-range
year makes `extract_year` return `none` immediately (see the
counterexample). -/
theorem claim_C3_amended :
    (∀ (t : CLI.MutagenRead) (cy : Nat), ∃ r, CLI.get_song_year t cy true = .ok r)
    ∧ (∀ (f : ORG.FileO) (cy : Nat) (e1 e2 e3 e4 e5 : String),
        f.eyed3R = .error e1 → f.id3R = .error e2 → f.flacR = .error e3 →
        f.mp4R = .error e4 → f.mutagenR = .error e5 →
        ORG.extract_year f cy = ORG.extract_year_from_filename f.name f.dir cy)
    ∧ ORG.extract_year
        ⟨"song.mp3", "/music", ".mp3", 0, .error "unreadable", .error "unreadable",
         .error "unreadable", .error "unreadable", .error "unreadable", true, ""⟩ 2025
        = none := by
  refine ⟨?_, ?_, rfl⟩
  · intro t cy
    cases t with
    | error e => exact ⟨none, rfl⟩
    | ok o =>
      cases o with
      | none => exact ⟨none, rfl⟩
      | some tags => exact ⟨_, rfl⟩
  · intro f cy e1 e2 e3 e4 e5 h1 h2 h3 h4 h5
    unfold ORG.extract_year
    split_ifs with hmp3 hflac hm4a
    · simp only [ORG.extract_year_mp3, h1, ORG.extract_year_mp3.extract_year_mp3_id3, h2]
    · simp only [ORG.extract_year_flac, h3]
    · simp only [ORG.extract_year_m4a, h4]
    · simp only [h5]

/-- C3, witness: a file whose every reader raises resolves through the
filename fallback. -/
theorem claim_C3_witness :
    ORG.extract_year
      ⟨"track 2003.mp3", "/d", ".mp3", 0, .error "e", .error "e", .error "e",
       .error "e", .error "e", true, ""⟩ 2025
      = ORG.extract_year_from_filename "track 2003.mp3" "/d" 2025 :=
  claim_C3_amended.2.1
    ⟨"track 2003.mp3", "/d", ".mp3", 0, .error "e", .error "e", .error "e",
     .error "e", .error "e", true, ""⟩ 2025 "e" "e" "e" "e" "e" rfl rfl rfl rfl rfl

/-! ## Claim C10 — get_target_path creates directories as a side effect -/

namespace ORG

/-- Projection: `get_target_path` never touches the file set. -/
theorem get_target_path_files (cy : Nat) (fs : FSO) (td : String) (f : FileO)
    (yr : Option Int) : ((get_target_path cy fs td f yr).1).files = fs.files := rfl

/-- The year-folder name organizer.py derives for a file: `str(year)` for a
truthy resolved year, the literal `"Unknown Year"` otherwise
(organizer.py:271-272). -/
def year_folder (cy : Nat) (f : FileO) : String :=
  match extract_year f cy with
  | some n => if n = 0 then "Unknown Year" else toString n
  | none => "Unknown Year"

/-- When `organize_file` passes the year it just extracted,
`get_target_path` computes exactly `target_dir/<year_folder>` and the file
path inside it. -/
theorem get_target_path_eq (cy : Nat) (fs : FSO) (td : String) (f : FileO) :
    get_target_path cy fs td f (extract_year f cy)
      = ({ fs with dirs := (td ++ "/" ++ year_folder cy f) :: fs.dirs },
         td ++ "/" ++ year_folder cy f ++ "/" ++ f.name) := by
  unfold get_target_path year_folder
  cases h : extract_year f cy with
  | none => simp [h]
  | some n =>
    by_cases hn : n = 0
    · subst hn
      simp [h]
    · simp [h, hn]

end ORG

/-- C10: for every file processed by the organizer.py variant,
`get_target_path` creates the destination year directory (or
`"Unknown Year"` directory) as a side effect of computing the target path
— `organize_file` therefore leaves that directory in the filesystem on
every outcome (copy, skip, or failed copy), so a run can create a year
folder into which no file is ever copied (third conjunct: the copy raises
and the filesystem ends with the directory created and no file). -/
theorem claim_C10_thm :
    (∀ (cy : Nat) (fs : ORG.FSO) (td : String) (f : ORG.FileO) (yr : Option Int),
        ∃ d, ORG.get_target_path cy fs td f yr
          = ({ fs with dirs := d :: fs.dirs }, d ++ "/" ++ f.name))
    ∧ (∀ (cy : Nat) (td : String) (f : ORG.FileO) (s : ORG.StatsO) (fs : ORG.FSO),
        (td ++ "/" ++ ORG.year_folder cy f) ∈ ((ORG.organize_file cy td f s fs).2).dirs)
    ∧ (ORG.organize_file 2025 "/dest"
        ⟨"a.mp3", "/src", ".mp3", 5, .ok (some ⟨some "2001-05-05", none, none⟩),
         .ok [], .ok [], .ok [], .ok none, false, "disk full"⟩
        ORG.initStatsO ⟨[], []⟩).2 = ⟨["/dest/2001"], []⟩ := by
  refine ⟨?_, ?_, rfl⟩
  · intro cy fs td f yr
    exact ⟨_, rfl⟩
  · intro cy td f s fs
    unfold ORG.organize_file
    dsimp only
    rw [ORG.get_target_path_eq]
    dsimp only
    split_ifs <;> simp [List.mem_cons]

/-! ## Claim C2 — per-file exceptions: counting, records, continuation -/

namespace CLI

/-- Lemma: `resolvedYearC` unfolds to a successful `get_song_year` call. -/
theorem resolvedYearC_some {cy : Nat} {f : FileC} {y : String}
    (h : resolvedYearC cy f = some y) :
    get_song_year f.tags cy true = .ok (some y) := by
  unfold resolvedYearC at h
  split at h
  · cases h
    assumption
  · cases h

/-- Lemma: `mkdir` touches only the directory set, so existence checks on files
made right after it read the original file set. -/
theorem fexists_mkdirp (fs : FS) (x d : String) :
    fexists (mkdirp fs x) d = fexists fs d := rfl

/-- Every qualifying file contributes exactly one to `total`, whatever
happens to it. -/
theorem processFileC_total (dest : String) (cy : Nat) (o : OptsC) (f : FileC)
    (s : StatsC) (fs : FS) :
    (processFileC dest cy o f s fs).1.total = s.total + 1 := by
  unfold processFileC
  dsimp only
  split
  · rfl
  · split_ifs <;> rfl
  · split_ifs <;> rfl

end CLI

/-- C2, counterexample: the claim says a per-file exception appends an
error record (source-file identifier plus message) to the stats.  In
cli.py (and identically advanced_gui.py and organize_my_beats.py) the
stats dictionary has only the keys
`total/copied/skipped/no_year/errors/years`: two different files whose
copies fail with different errors leave IDENTICAL final stats — no
identifier or message is recorded anywhere in them. -/
theorem claim_C2_counterexample :
    (CLI.processFileC "/d" 2025 ⟨false, false⟩
      ⟨"a.mp3", ".mp3", .ok (some [("date", "1995-01-01")]), false⟩
      initStatsC ⟨[], []⟩).1 = ⟨1, 0, 0, 0, 1, [("1995", 1)]⟩
    ∧ (CLI.processFileC "/d" 2025 ⟨false, false⟩
      ⟨"b.mp3", ".mp3", .ok (some [("date", "1995-01-01")]), false⟩
      initStatsC ⟨[], []⟩).1 = ⟨1, 0, 0, 0, 1, [("1995", 1)]⟩ :=
  ⟨rfl, rfl⟩

/-- C2 (amended): an exception while processing a single file increments
the errors counter and processing continues with the next file in every
variant — but only the organizer.py variant also appends an error record
`"<basename>: <message>"` to its stats; the cli/advanced/threaded variants
merely count (first conjunct: organizer.py appends the record on a failed
copy; second: cli.py increments `errors` and does not count the file as
copied; third: every qualifying file of the walk is reached and counted in
`total`, so no per-file failure aborts the run). -/
theorem claim_C2_amended :
    (∀ (cy : Nat) (td : String) (f : ORG.FileO) (s : ORG.StatsO) (fs : ORG.FSO),
        f.copyOk = false →
        ORG.mtimeOf fs.files
          ((ORG.get_target_path cy fs td f (ORG.extract_year f cy)).2) = none →
        (ORG.organize_file cy td f s fs).1.failed_files = s.failed_files + 1
        ∧ (ORG.organize_file cy td f s fs).1.errors
            = s.errors ++ [f.name ++ ": " ++ f.copyMsg])
    ∧ (∀ (dest : String) (cy : Nat) (o : CLI.OptsC) (f : CLI.FileC) (s : StatsC)
          (fs : FS) (y : String),
        CLI.resolvedYearC cy f = some y → f.copyOk = false →
        fexists fs (dest ++ "/" ++ y ++ "/" ++ f.name) = false →
        (CLI.processFileC dest cy o f s fs).1.errors = s.errors + 1
        ∧ (CLI.processFileC dest cy o f s fs).1.copied = s.copied)
    ∧ (∀ (dest : String) (cy : Nat) (o : CLI.OptsC) (files : List CLI.FileC)
          (s : StatsC) (fs : FS),
        (CLI.copy_by_year dest cy o files s fs).1.total = s.total + CLI.countQualC files) := by
  refine ⟨?_, ?_, ?_⟩
  · intro cy td f s fs hco hmt
    unfold ORG.organize_file
    dsimp only
    have hfe : ((ORG.get_target_path cy fs td f (ORG.extract_year f cy)).1).files
        = fs.files := rfl
    rw [hfe, hmt]
    dsimp only
    rw [if_pos rfl, hco, if_neg (by decide : ¬(false = true))]
    exact ⟨rfl, rfl⟩
  · intro dest cy o f s fs y hy hco he
    have hg := CLI.resolvedYearC_some hy
    unfold CLI.processFileC
    rw [hg]
    dsimp only
    rw [CLI.fexists_mkdirp, he, hco]
    simp
  · intro dest cy o files s fs
    induction files generalizing s fs with
    | nil => simp [CLI.copy_by_year, CLI.countQualC]
    | cons f rest ih =>
      unfold CLI.copy_by_year CLI.countQualC
      by_cases hq : CLI.qualC f
      · rw [if_pos hq, if_pos hq, ih, CLI.processFileC_total]
        omega
      · rw [if_neg hq, if_neg hq, ih]
        omega

/-- C2, witness: a failed copy in organizer.py appends the record
`"a.mp3: disk full"`. -/
theorem claim_C2_witness :
    (ORG.organize_file 2025 "/dest"
      ⟨"a.mp3", "/src", ".mp3", 5, .ok (some ⟨some "2001-05-05", none, none⟩),
       .ok [], .ok [], .ok [], .ok none, false, "disk full"⟩
      ORG.initStatsO ⟨[], []⟩).1.errors = [] ++ ["a.mp3" ++ ": " ++ "disk full"] :=
  (claim_C2_amended.1 2025 "/dest"
    ⟨"a.mp3", "/src", ".mp3", 5, .ok (some ⟨some "2001-05-05", none, none⟩),
     .ok [], .ok [], .ok [], .ok none, false, "disk full"⟩
    ORG.initStatsO ⟨[], []⟩ rfl rfl).2

/-! ## Claim C5 — routing of unresolved files -/

/-- C5: for every file whose year resolution fails, the per-file body of
cli.py (and, identically, advanced_gui.py) increments `no_year` and:
with `unknown_year_folder` false the filesystem is untouched (the file is
not copied anywhere); with the option true and a succeeding copy primitive
the file lands in `dest/Unknown Year/<filename>` exactly under the same
existence/overwrite rule as resolved files; `copied`/`skipped` are never
touched for such a file. -/
theorem claim_C5_thm :
    ∀ (dest : String) (cy : Nat) (o : CLI.OptsC) (f : CLI.FileC) (s : StatsC) (fs : FS),
      CLI.get_song_year f.tags cy true = .ok none →
      (CLI.processFileC dest cy o f s fs).1.no_year = s.no_year + 1
      ∧ (o.unknown_year_folder = false → (CLI.processFileC dest cy o f s fs).2 = fs)
      ∧ (o.unknown_year_folder = true → f.copyOk = true →
          ((CLI.processFileC dest cy o f s fs).2).files
            = (if !(fexists fs (dest ++ "/Unknown Year/" ++ f.name)) || o.overwrite
               then (dest ++ "/Unknown Year/" ++ f.name) :: fs.files else fs.files))
      ∧ (CLI.processFileC dest cy o f s fs).1.copied = s.copied
      ∧ (CLI.processFileC dest cy o f s fs).1.skipped = s.skipped := by
  intro dest cy o f s fs hg
  unfold CLI.processFileC
  rw [hg]
  dsimp only
  rw [CLI.fexists_mkdirp]
  refine ⟨?_, ?_, ?_, ?_, ?_⟩
  · split_ifs <;> rfl
  · intro hu
    rw [if_neg (by rw [hu]; exact Bool.false_ne_true)]
  · intro hu hc
    rw [if_pos (by rw [hu]), hc]
    by_cases hcond : (!(fexists fs (dest ++ "/Unknown Year/" ++ f.name)) || o.overwrite) = true
    · rw [if_pos hcond, if_pos hcond, if_pos rfl]
      rfl
    · rw [if_neg hcond, if_neg hcond]
      rfl
  · split_ifs <;> rfl
  · split_ifs <;> rfl

/-- C5, witness: an unresolved file with the option enabled is counted in
`no_year`. -/
theorem claim_C5_witness :
    (CLI.processFileC "/d" 2025 ⟨false, true⟩ ⟨"u.mp3", ".mp3", .ok (some []), true⟩
      initStatsC ⟨[], []⟩).1.no_year = initStatsC.no_year + 1 :=
  (claim_C5_thm "/d" 2025 ⟨false, true⟩ ⟨"u.mp3", ".mp3", .ok (some []), true⟩
    initStatsC ⟨[], []⟩ rfl).1

/-! ## Claim C6 — when the per-year histogram is incremented -/

/-- Incrementing one year's entry grows the recorded total by one. -/
theorem yearsSum_bump (ys : List (String × Nat)) (y : String) :
    yearsSum (bumpYear ys y) = yearsSum ys + 1 := by
  induction ys with
  | nil => rfl
  | cons p t ih =>
    obtain ⟨k, n⟩ := p
    unfold bumpYear
    split_ifs with hk
    · simp only [yearsSum, List.foldr]
      omega
    · simp only [yearsSum, List.foldr] at ih ⊢
      omega

namespace CLI

/-- In the cli/advanced per-file body the histogram entry is bumped exactly
when the year resolves — before and independently of the copy outcome. -/
theorem processFileC_yearsSum (dest : String) (cy : Nat) (o : OptsC) (f : FileC)
    (s : StatsC) (fs : FS) :
    yearsSum ((processFileC dest cy o f s fs).1.years)
      = yearsSum s.years + (if (resolvedYearC cy f).isSome then 1 else 0) := by
  unfold processFileC resolvedYearC
  cases hg : get_song_year f.tags cy true with
  | error e =>
    dsimp only
    simp
  | ok yo =>
    cases yo with
    | none =>
      dsimp only
      split_ifs <;> simp_all
    | some y =>
      dsimp only
      split_ifs <;> simp_all [yearsSum_bump]

end CLI

namespace MB

/-- In the threaded worker body the histogram entry is bumped exactly when
the file is successfully copied. -/
theorem processFileM_yearsSum (dest : String) (f : CLI.FileC) (s : StatsC) (fs : FS) :
    yearsSum ((processFileM dest f s fs).1.years) + s.copied
      = yearsSum s.years + (processFileM dest f s fs).1.copied := by
  unfold processFileM
  cases CLI.get_song_year_mb f.tags with
  | none => dsimp only
  | some y =>
    dsimp only
    split_ifs
    · dsimp only
      rw [yearsSum_bump]
      omega
    · rfl
    · rfl

end MB

/-- C6, counterexample: the claim says the histogram entry is incremented
exactly when the file is successfully copied.  In cli.py (lines 100-105,
and identically advanced_gui.py) the entry is incremented on resolution,
before the copy decision: a resolved file that is then SKIPPED (already at
the destination, overwrite off) still lands in the map — final stats have
`copied = 0` yet one file recorded under "1995". -/
theorem claim_C6_counterexample :
    (CLI.copy_by_year "/d" 2025 ⟨false, false⟩
      [⟨"a.mp3", ".mp3", .ok (some [("date", "1995-01-01")]), true⟩]
      initStatsC ⟨[], ["/d/1995/a.mp3"]⟩).1 = ⟨1, 0, 1, 0, 0, [("1995", 1)]⟩
    ∧ yearsSum (CLI.copy_by_year "/d" 2025 ⟨false, false⟩
        [⟨"a.mp3", ".mp3", .ok (some [("date", "1995-01-01")]), true⟩]
        initStatsC ⟨[], ["/d/1995/a.mp3"]⟩).1.years
      ≠ (CLI.copy_by_year "/d" 2025 ⟨false, false⟩
        [⟨"a.mp3", ".mp3", .ok (some [("date", "1995-01-01")]), true⟩]
        initStatsC ⟨[], ["/d/1995/a.mp3"]⟩).1.copied := by
  exact ⟨rfl, by decide⟩

/-- C6 (amended): the variants disagree — cli.py/advanced_gui.py increment
the per-year histogram on resolution (the sum over the map after a run
equals the number of qualifying files whose year resolved, skipped and
failed copies included), while the organize_my_beats.py worker increments
it on successful copy only (the sum's growth equals the growth of
`copied`). -/
theorem claim_C6_amended :
    (∀ (dest : String) (cy : Nat) (o : CLI.OptsC) (files : List CLI.FileC)
        (s : StatsC) (fs : FS),
      yearsSum ((CLI.copy_by_year dest cy o files s fs).1.years)
        = yearsSum s.years + CLI.countResolvedC cy files)
    ∧ (∀ (dest : String) (files : List CLI.FileC) (s : StatsC) (fs : FS),
      yearsSum ((MB.organize_mb dest files s fs).1.years) + s.copied
        = yearsSum s.years + (MB.organize_mb dest files s fs).1.copied) := by
  constructor
  · intro dest cy o files
    induction files with
    | nil => intro s fs; simp [CLI.copy_by_year, CLI.countResolvedC]
    | cons f rest ih =>
      intro s fs
      unfold CLI.copy_by_year CLI.countResolvedC
      by_cases hq : CLI.qualC f
      · rw [if_pos hq, ih, CLI.processFileC_yearsSum]
        have hr : CLI.isResolvedC cy f = (CLI.resolvedYearC cy f).isSome := by
          unfold CLI.isResolvedC
          rw [hq]
          simp
        rw [hr]
        omega
      · rw [if_neg hq, ih]
        have hr : CLI.isResolvedC cy f = false := by
          unfold CLI.isResolvedC
          rw [Bool.not_eq_true] at hq
          rw [hq]
          simp
        rw [hr]
        simp
  · intro dest files
    induction files with
    | nil => intro s fs; simp [MB.organize_mb]
    | cons f rest ih =>
      intro s fs
      unfold MB.organize_mb
      by_cases hq : CLI.qualC f
      · rw [if_pos hq]
        have hstep := MB.processFileM_yearsSum dest f { s with total := s.total + 1 } fs
        have htail := ih (MB.processFileM dest f { s with total := s.total + 1 } fs).1
          (MB.processFileM dest f { s with total := s.total + 1 } fs).2
        dsimp only at hstep htail ⊢
        omega
      · rw [if_neg hq]
        exact ih s fs

/-! ## Claim C9 — the stats accounting invariant -/

namespace CLI

/-- The per-file body preserves `total = copied + skipped + no_year +
errors` as long as no unresolved file has its Unknown-Year copy raise
(every other exception point contributes its own `errors` increment
without a second bucket). -/
theorem processFileC_inv (dest : String) (cy : Nat) (o : OptsC) (f : FileC)
    (s : StatsC) (fs : FS)
    (hf : o.unknown_year_folder = true → resolvedYearC cy f = none → f.copyOk = true)
    (hs : s.total = s.copied + s.skipped + s.no_year + s.errors) :
    (processFileC dest cy o f s fs).1.total
      = (processFileC dest cy o f s fs).1.copied
        + (processFileC dest cy o f s fs).1.skipped
        + (processFileC dest cy o f s fs).1.no_year
        + (processFileC dest cy o f s fs).1.errors := by
  unfold processFileC
  cases hg : get_song_year f.tags cy true with
  | error e =>
    dsimp only
    omega
  | ok yo =>
    cases yo with
    | some y =>
      dsimp only
      split_ifs <;> dsimp only <;> omega
    | none =>
      have hr : resolvedYearC cy f = none := by
        unfold resolvedYearC
        rw [hg]
      dsimp only
      split_ifs with h1 h2 h3 <;> dsimp only <;> try omega
      · exact absurd (hf h1 hr) h3
end CLI

/-- C9, counterexample: the claim says `total = copied + skipped + no_year
+ errors` holds after each processed file.  In cli.py an unresolved file
(counted in `no_year`) whose copy into the Unknown Year folder then raises
is ALSO counted in `errors`: after one file, total = 1 but the buckets sum
to 2. -/
theorem claim_C9_counterexample :
    (CLI.copy_by_year "/d" 2025 ⟨false, true⟩
      [⟨"u.mp3", ".mp3", .ok (some []), false⟩] initStatsC ⟨[], []⟩).1
      = ⟨1, 0, 0, 1, 1, []⟩
    ∧ (CLI.copy_by_year "/d" 2025 ⟨false, true⟩
        [⟨"u.mp3", ".mp3", .ok (some []), false⟩] initStatsC ⟨[], []⟩).1.total
      ≠ (CLI.copy_by_year "/d" 2025 ⟨false, true⟩
          [⟨"u.mp3", ".mp3", .ok (some []), false⟩] initStatsC ⟨[], []⟩).1.copied
        + (CLI.copy_by_year "/d" 2025 ⟨false, true⟩
            [⟨"u.mp3", ".mp3", .ok (some []), false⟩] initStatsC ⟨[], []⟩).1.skipped
        + (CLI.copy_by_year "/d" 2025 ⟨false, true⟩
            [⟨"u.mp3", ".mp3", .ok (some []), false⟩] initStatsC ⟨[], []⟩).1.no_year
        + (CLI.copy_by_year "/d" 2025 ⟨false, true⟩
            [⟨"u.mp3", ".mp3", .ok (some []), false⟩] initStatsC ⟨[], []⟩).1.errors :=
  ⟨rfl, by decide⟩

/-- C9 (amended): `total = copied + skipped + no_year + errors` holds after
every processed prefix of a run provided no unresolved file has its
Unknown-Year copy raise (e.g. the option is off, or every unresolved
file's copy succeeds); the organize_my_beats.py worker preserves the
invariant unconditionally (it has no Unknown-Year copy). -/
theorem claim_C9_amended :
    (∀ (dest : String) (cy : Nat) (o : CLI.OptsC) (files : List CLI.FileC)
        (s : StatsC) (fs : FS),
      (∀ f ∈ files, o.unknown_year_folder = true →
        CLI.resolvedYearC cy f = none → f.copyOk = true) →
      s.total = s.copied + s.skipped + s.no_year + s.errors →
      (CLI.copy_by_year dest cy o files s fs).1.total
        = (CLI.copy_by_year dest cy o files s fs).1.copied
          + (CLI.copy_by_year dest cy o files s fs).1.skipped
          + (CLI.copy_by_year dest cy o files s fs).1.no_year
          + (CLI.copy_by_year dest cy o files s fs).1.errors)
    ∧ (∀ (dest : String) (files : List CLI.FileC) (s : StatsC) (fs : FS),
      s.total = s.copied + s.skipped + s.no_year + s.errors →
      (MB.organize_mb dest files s fs).1.total
        = (MB.organize_mb dest files s fs).1.copied
          + (MB.organize_mb dest files s fs).1.skipped
          + (MB.organize_mb dest files s fs).1.no_year
          + (MB.organize_mb dest files s fs).1.errors) := by
  constructor
  · intro dest cy o files
    induction files with
    | nil => intro s fs _ hs; exact hs
    | cons f rest ih =>
      intro s fs hf hs
      unfold CLI.copy_by_year
      by_cases hq : CLI.qualC f
      · rw [if_pos hq]
        exact ih _ _ (fun g hg => hf g (List.mem_cons_of_mem f hg))
          (CLI.processFileC_inv dest cy o f s fs (hf f (List.mem_cons_self f rest)) hs)
      · rw [if_neg hq]
        exact ih s fs (fun g hg => hf g (List.mem_cons_of_mem f hg)) hs
  · intro dest files
    induction files with
    | nil => intro s fs hs; exact hs
    | cons f rest ih =>
      intro s fs hs
      unfold MB.organize_mb
      by_cases hq : CLI.qualC f
      · rw [if_pos hq]
        refine ih _ _ ?_
        unfold MB.processFileM
        cases CLI.get_song_year_mb f.tags with
        | none => dsimp only; omega
        | some y =>
          dsimp only
          split_ifs <;> dsimp only <;> omega
      · rw [if_neg hq]
        exact ih s fs hs

/-- C9, witness: a run over a single unresolved file whose Unknown-Year
copy succeeds balances the books. -/
theorem claim_C9_witness :
    (CLI.copy_by_year "/d" 2025 ⟨false, true⟩
      [⟨"u.mp3", ".mp3", .ok (some []), true⟩] initStatsC ⟨[], []⟩).1.total
      = (CLI.copy_by_year "/d" 2025 ⟨false, true⟩
          [⟨"u.mp3", ".mp3", .ok (some []), true⟩] initStatsC ⟨[], []⟩).1.copied
        + (CLI.copy_by_year "/d" 2025 ⟨false, true⟩
            [⟨"u.mp3", ".mp3", .ok (some []), true⟩] initStatsC ⟨[], []⟩).1.skipped
        + (CLI.copy_by_year "/d" 2025 ⟨false, true⟩
            [⟨"u.mp3", ".mp3", .ok (some []), true⟩] initStatsC ⟨[], []⟩).1.no_year
        + (CLI.copy_by_year "/d" 2025 ⟨false, true⟩
            [⟨"u.mp3", ".mp3", .ok (some []), true⟩] initStatsC ⟨[], []⟩).1.errors :=
  claim_C9_amended.1 "/d" 2025 ⟨false, true⟩
    [⟨"u.mp3", ".mp3", .ok (some []), true⟩] initStatsC ⟨[], []⟩
    (by
      intro f hf h1 h2
      rw [List.mem_singleton] at hf
      rw [hf])
    rfl

/-! ## Claim C4 — idempotence of a second run -/

namespace CLI

/-- The per-file body only ever adds destination files. -/
theorem processFileC_files_mono (dest : String) (cy : Nat) (o : OptsC) (f : FileC)
    (s : StatsC) (fs : FS) {p : String} (hp : p ∈ fs.files) :
    p ∈ ((processFileC dest cy o f s fs).2).files := by
  unfold processFileC
  cases get_song_year f.tags cy true with
  | error e => exact hp
  | ok yo =>
    cases yo with
    | some y =>
      dsimp only
      split_ifs <;> simp [copy2, mkdirp, hp]
    | none =>
      dsimp only
      split_ifs <;> simp [copy2, mkdirp, hp]

/-- A whole run only ever adds destination files. -/
theorem copy_by_year_files_mono (dest : String) (cy : Nat) (o : OptsC)
    (files : List FileC) (s : StatsC) (fs : FS) {p : String} (hp : p ∈ fs.files) :
    p ∈ ((copy_by_year dest cy o files s fs).2).files := by
  induction files generalizing s fs with
  | nil => exact hp
  | cons f rest ih =>
    unfold copy_by_year
    by_cases hq : qualC f
    · rw [if_pos hq]
      exact ih _ _ (processFileC_files_mono dest cy o f s fs hp)
    · rw [if_neg hq]
      exact ih s fs hp

/-- After the body processes a resolved file whose copy succeeds, its
destination path exists (it was either just copied or already present). -/
theorem processFileC_resolved_dest (dest : String) (cy : Nat) (o : OptsC)
    (f : FileC) (s : StatsC) (fs : FS) {y : String}
    (hy : resolvedYearC cy f = some y) (hc : f.copyOk = true) :
    (dest ++ "/" ++ y ++ "/" ++ f.name) ∈ ((processFileC dest cy o f s fs).2).files := by
  have hg := resolvedYearC_some hy
  unfold processFileC
  rw [hg]
  dsimp only
  rw [fexists_mkdirp, hc]
  split_ifs with h1 <;>
    simp_all [copy2, mkdirp, fexists, decide_eq_true_eq]

/-- On a resolved file already present at its destination, with overwrite
off, the body skips: `copied` unchanged, `skipped` incremented. -/
theorem processFileC_skip (dest : String) (cy : Nat) (o : OptsC) (f : FileC)
    (s : StatsC) (fs : FS) {y : String}
    (hg : get_song_year f.tags cy true = .ok (some y))
    (hmem : fexists fs (dest ++ "/" ++ y ++ "/" ++ f.name) = true)
    (hov : o.overwrite = false) :
    (processFileC dest cy o f s fs).1.copied = s.copied
    ∧ (processFileC dest cy o f s fs).1.skipped = s.skipped + 1 := by
  unfold processFileC
  rw [hg]
  dsimp only
  rw [fexists_mkdirp, hmem, hov]
  exact ⟨rfl, rfl⟩

/-- On an unresolved file the body touches neither `copied` nor `skipped`. -/
theorem processFileC_unresolved_counts (dest : String) (cy : Nat) (o : OptsC)
    (f : FileC) (s : StatsC) (fs : FS)
    (hg : get_song_year f.tags cy true = .ok none) :
    (processFileC dest cy o f s fs).1.copied = s.copied
    ∧ (processFileC dest cy o f s fs).1.skipped = s.skipped := by
  unfold processFileC
  rw [hg]
  dsimp only
  split_ifs <;> exact ⟨rfl, rfl⟩

/-- After a complete run in which every copy succeeds, the destination path
of every qualifying resolved file of the walk exists. -/
theorem copy_by_year_resolved_dest (dest : String) (cy : Nat) (o : OptsC)
    (files : List FileC) (s : StatsC) (fs : FS)
    (hok : ∀ f ∈ files, f.copyOk = true) :
    ∀ f ∈ files, isResolvedC cy f = true →
      destPathC dest cy f ∈ ((copy_by_year dest cy o files s fs).2).files := by
  induction files generalizing s fs with
  | nil => intro f hf; cases hf
  | cons g rest ih =>
    intro f hf hres
    rcases List.mem_cons.1 hf with hfg | hftail
    · subst hfg
      unfold isResolvedC at hres
      rw [Bool.and_eq_true] at hres
      obtain ⟨hq, hsome⟩ := hres
      obtain ⟨y, hy⟩ := Option.isSome_iff_exists.1 hsome
      unfold copy_by_year
      rw [if_pos hq]
      dsimp only
      have hdest := processFileC_resolved_dest dest cy o f s fs hy
        (hok f (List.mem_cons_self f rest))
      have hdp : destPathC dest cy f = dest ++ "/" ++ y ++ "/" ++ f.name := by
        unfold destPathC
        rw [hy]
        rfl
      rw [hdp]
      exact copy_by_year_files_mono dest cy o rest _ _ hdest
    · unfold copy_by_year
      by_cases hq : qualC g
      · rw [if_pos hq]
        exact ih _ _ (fun h hh => hok h (List.mem_cons_of_mem g hh)) f hftail hres
      · rw [if_neg hq]
        exact ih s fs (fun h hh => hok h (List.mem_cons_of_mem g hh)) f hftail hres

/-- Second-run counting: with `overwrite` off, every copy succeeding, and
every qualifying resolved file already present at its destination, a run
copies nothing and skips exactly the qualifying resolved files. -/
theorem copy_by_year_second_counts (dest : String) (cy : Nat) (o : OptsC)
    (files : List FileC) (s : StatsC) (fs : FS)
    (hov : o.overwrite = false)
    (hok : ∀ f ∈ files, f.copyOk = true)
    (hpre : ∀ f ∈ files, isResolvedC cy f = true → destPathC dest cy f ∈ fs.files) :
    (copy_by_year dest cy o files s fs).1.copied = s.copied
    ∧ (copy_by_year dest cy o files s fs).1.skipped
        = s.skipped + countResolvedC cy files := by
  induction files generalizing s fs with
  | nil => exact ⟨rfl, rfl⟩
  | cons f rest ih =>
    have hrest_ok : ∀ h ∈ rest, h.copyOk = true :=
      fun h hh => hok h (List.mem_cons_of_mem f hh)
    unfold copy_by_year countResolvedC
    by_cases hq : qualC f
    · rw [if_pos hq]
      dsimp only
      have hrest_pre : ∀ h ∈ rest, isResolvedC cy h = true →
          destPathC dest cy h ∈ ((processFileC dest cy o f s fs).2).files :=
        fun h hh hr =>
          processFileC_files_mono dest cy o f s fs (hpre h (List.mem_cons_of_mem f hh) hr)
      have hih := ih ((processFileC dest cy o f s fs).1)
        ((processFileC dest cy o f s fs).2) hrest_ok hrest_pre
      cases hg : get_song_year f.tags cy true with
      | error e =>
        have hres : isResolvedC cy f = false := by
          unfold isResolvedC resolvedYearC
          rw [hg, Bool.and_eq_false_iff]
          exact Or.inr rfl
        have hcs : (processFileC dest cy o f s fs).1.copied = s.copied
            ∧ (processFileC dest cy o f s fs).1.skipped = s.skipped := by
          unfold processFileC
          rw [hg]
          exact ⟨rfl, rfl⟩
        refine ⟨by rw [hih.1, hcs.1], ?_⟩
        rw [hih.2, hcs.2, hres]
        simp
      | ok yo =>
        cases yo with
        | some y =>
          have hy : resolvedYearC cy f = some y := by
            unfold resolvedYearC
            rw [hg]
          have hres : isResolvedC cy f = true := by
            unfold isResolvedC
            rw [hq, hy]
            rfl
          have hmem := hpre f (List.mem_cons_self f rest) hres
          have hdp : destPathC dest cy f = dest ++ "/" ++ y ++ "/" ++ f.name := by
            unfold destPathC
            rw [hy]
            rfl
          rw [hdp] at hmem
          have hcs := processFileC_skip dest cy o f s fs hg (decide_eq_true hmem) hov
          refine ⟨by rw [hih.1, hcs.1], ?_⟩
          have hone : (if isResolvedC cy f = true then (1 : Nat) else 0) = 1 := by
            rw [hres]
            simp
          rw [hih.2, hcs.2, hone]
          omega
        | none =>
          have hres : isResolvedC cy f = false := by
            unfold isResolvedC resolvedYearC
            rw [hg, Bool.and_eq_false_iff]
            exact Or.inr rfl
          have hcs := processFileC_unresolved_counts dest cy o f s fs hg
          refine ⟨by rw [hih.1, hcs.1], ?_⟩
          rw [hih.2, hcs.2, hres]
          simp
    · rw [if_neg hq]
      have hres : isResolvedC cy f = false := by
        unfold isResolvedC
        rw [Bool.not_eq_true] at hq
        rw [hq]
        rfl
      have hih := ih s fs hrest_ok
        (fun h hh hr => hpre h (List.mem_cons_of_mem f hh) hr)
      refine ⟨hih.1, ?_⟩
      rw [hih.2, hres]
      simp

end CLI

/-- C4, counterexample: the claim says a second run with `overwrite=false`
yields `skipped == total_qualifying_files`.  A source with one qualifying
file whose year does not resolve refutes it: the second run counts the
file in `no_year` again, so `skipped = 0` while `total = 1`. -/
theorem claim_C4_counterexample :
    (CLI.copy_by_year "/d" 2025 ⟨false, false⟩
      [⟨"u.mp3", ".mp3", .ok (some []), true⟩] initStatsC
      ((CLI.copy_by_year "/d" 2025 ⟨false, false⟩
        [⟨"u.mp3", ".mp3", .ok (some []), true⟩] initStatsC ⟨[], []⟩).2)).1
      = ⟨1, 0, 0, 1, 0, []⟩
    ∧ (CLI.copy_by_year "/d" 2025 ⟨false, false⟩
        [⟨"u.mp3", ".mp3", .ok (some []), true⟩] initStatsC
        ((CLI.copy_by_year "/d" 2025 ⟨false, false⟩
          [⟨"u.mp3", ".mp3", .ok (some []), true⟩] initStatsC ⟨[], []⟩).2)).1.skipped
      ≠ (CLI.copy_by_year "/d" 2025 ⟨false, false⟩
          [⟨"u.mp3", ".mp3", .ok (some []), true⟩] initStatsC
          ((CLI.copy_by_year "/d" 2025 ⟨false, false⟩
            [⟨"u.mp3", ".mp3", .ok (some []), true⟩] initStatsC ⟨[], []⟩).2)).1.total :=
  ⟨rfl, by decide⟩

/-- C4 (amended): after one complete run with `overwrite=false`, a second
run over the same source and destination with `overwrite=false` — with
deterministic metadata and every copy primitive succeeding — yields
`copied = 0` and `skipped =` the number of qualifying files whose year
RESOLVES (not the number of all qualifying files: unresolved files are
counted in `no_year` again on every run, and files that repeatedly fail
are counted in `errors` again). -/
theorem claim_C4_amended :
    ∀ (dest : String) (cy : Nat) (o : CLI.OptsC) (files : List CLI.FileC) (fs0 : FS),
      o.overwrite = false →
      (∀ f ∈ files, f.copyOk = true) →
      (CLI.copy_by_year dest cy o files initStatsC
        ((CLI.copy_by_year dest cy o files initStatsC fs0).2)).1.copied = 0
      ∧ (CLI.copy_by_year dest cy o files initStatsC
          ((CLI.copy_by_year dest cy o files initStatsC fs0).2)).1.skipped
        = CLI.countResolvedC cy files := by
  intro dest cy o files fs0 hov hok
  have hpre := CLI.copy_by_year_resolved_dest dest cy o files initStatsC fs0 hok
  have h := CLI.copy_by_year_second_counts dest cy o files initStatsC
    ((CLI.copy_by_year dest cy o files initStatsC fs0).2) hov hok hpre
  refine ⟨h.1, ?_⟩
  rw [h.2]
  simp [initStatsC]

/-- C4, witness: one resolved file, organized twice — the second run copies
nothing and skips it. -/
theorem claim_C4_witness :
    (CLI.copy_by_year "/d" 2025 ⟨false, false⟩
      [⟨"a.mp3", ".mp3", .ok (some [("date", "1995-01-01")]), true⟩] initStatsC
      ((CLI.copy_by_year "/d" 2025 ⟨false, false⟩
        [⟨"a.mp3", ".mp3", .ok (some [("date", "1995-01-01")]), true⟩]
        initStatsC ⟨[], []⟩).2)).1.copied = 0
    ∧ (CLI.copy_by_year "/d" 2025 ⟨false, false⟩
        [⟨"a.mp3", ".mp3", .ok (some [("date", "1995-01-01")]), true⟩] initStatsC
        ((CLI.copy_by_year "/d" 2025 ⟨false, false⟩
          [⟨"a.mp3", ".mp3", .ok (some [("date", "1995-01-01")]), true⟩]
          initStatsC ⟨[], []⟩).2)).1.skipped
      = CLI.countResolvedC 2025
          [⟨"a.mp3", ".mp3", .ok (some [("date", "1995-01-01")]), true⟩] :=
  claim_C4_amended "/d" 2025 ⟨false, false⟩
    [⟨"a.mp3", ".mp3", .ok (some [("date", "1995-01-01")]), true⟩] ⟨[], []⟩ rfl
    (by
      intro f hf
      rw [List.mem_singleton] at hf
      rw [hf])
